import Mathlib

/-!
Verification of the Petrol schema compiler (petrol-core, petrol-parser,
petrol-codegen) against its natural-language specification.

The Rust sources are shallowly embedded: enums become inductive types,
structs become structures, `Vec` becomes `List`, `Option` stays `Option`,
`Result` becomes `Except`, `u32`/`i64` become `Nat`/`Int` with explicit
bounds where parsing checks them.  Rust `f64` literals are embedded by
their source text (only their surface classification, never their binary
value, is relevant to any property below).
-/

namespace Petrol

/-! ## petrol-core/src/error.rs -/

/-- Embedding of `PetrolError` (petrol-core/src/error.rs).  The `Io` and
`Toml` payloads are opaque message strings. -/
inductive PetrolError where
  | schemaParse (msg : String)
  | validation (msg : String)
  | io (msg : String)
  | toml (msg : String)
  | unsupported (msg : String)
  | other (msg : String)
  deriving DecidableEq, Repr

/-! ## petrol-core/src/schema.rs : data model -/

/-- Embedding of `ScalarType`. -/
inductive ScalarType where
  | int | bigInt | float | decimal | string | boolean
  | dateTime | date | uuid | json | bytes
  deriving DecidableEq, Repr

/-- Embedding of `TypeModifiers`. -/
structure TypeModifiers where
  optional : Bool
  list : Bool
  deriving DecidableEq, Repr

/-- Embedding of `RelationAttribute`. -/
structure RelationAttribute where
  fields : List String
  references : List String
  deriving DecidableEq, Repr

/-- Embedding of `DefaultValue`.  The `float` variant carries the numeric
literal's text instead of a binary `f64`; no claim below depends on the
floating-point value itself. -/
inductive DefaultValue where
  | autoIncrement
  | uuid
  | now
  | boolean (value : Bool)
  | int (value : Int)
  | float (text : String)
  | string (value : String)
  deriving DecidableEq, Repr

/-- Embedding of `FieldAttribute`. -/
inductive FieldAttribute where
  | id
  | unique
  | updatedAt
  | map (name : String)
  | relation (attr : RelationAttribute)
  | default (value : DefaultValue)
  deriving DecidableEq, Repr

/-- Embedding of `RelationInfo`. -/
structure RelationInfo where
  model : String
  modifiers : TypeModifiers
  attributes : List FieldAttribute
  deriving DecidableEq, Repr

/-- Embedding of `FieldType`. -/
inductive FieldType where
  | scalar (s : ScalarType) (modifiers : TypeModifiers)
  | relation (info : RelationInfo)
  deriving DecidableEq, Repr

/-- Embedding of `Field`. -/
structure Field where
  name : String
  type : FieldType
  attributes : List FieldAttribute
  deriving DecidableEq, Repr

/-- Embedding of `ModelAttribute`. -/
inductive ModelAttribute where
  | map (name : String)
  | unique (fields : List String)
  | index (fields : List String)
  deriving DecidableEq, Repr

/-- Embedding of `Model`. -/
structure Model where
  name : String
  fields : List Field
  attributes : List ModelAttribute
  deriving DecidableEq, Repr

/-- Embedding of `DatasourceBlock`; `connection_limit` and
`pool_timeout_seconds` are `u32`, embedded as `Nat` (the parser enforces
the `u32` range at the only place a value is produced from text). -/
structure DatasourceBlock where
  name : String
  provider : String
  url : Option String
  rawUrl : Option String
  connectionLimit : Option Nat
  poolTimeoutSeconds : Option Nat
  deriving DecidableEq, Repr

/-- Embedding of `GeneratorBlock`. -/
structure GeneratorBlock where
  name : String
  provider : String
  output : Option String
  deriving DecidableEq, Repr

/-- Embedding of `Schema`. -/
structure Schema where
  datasource : DatasourceBlock
  generator : GeneratorBlock
  models : List Model
  deriving DecidableEq, Repr

/-! ## petrol-core/src/schema.rs : validation -/

/-- `matches!(a, FieldAttribute::Id)` from `Model::validate`. -/
def FieldAttribute.isId : FieldAttribute → Bool
  | .id => true
  | _ => false

/-- Embedding of `Model::validate`. -/
def Model.validate (m : Model) : Except PetrolError Unit :=
  if m.fields.isEmpty then
    .error (.validation ("model " ++ m.name ++ " must contain at least one field"))
  else if !(m.fields.any fun f => f.attributes.any FieldAttribute.isId) then
    .error (.validation ("model " ++ m.name ++ " must declare an @id field"))
  else
    .ok ()

/-- The `for model in &self.models { model.validate()?; }` loop of
`Schema::validate`: first error wins, in declaration order. -/
def validateModels : List Model → Except PetrolError Unit
  | [] => .ok ()
  | m :: rest => do
      m.validate
      validateModels rest

/-- Embedding of `Schema::validate`. -/
def Schema.validate (s : Schema) : Except PetrolError Unit :=
  if s.models.isEmpty then
    .error (.validation "schema must contain at least one model")
  else
    validateModels s.models

/-- The attribute scan of `Model::table_name`: the first `Map` model
attribute, if any. -/
def firstMapModelAttr : List ModelAttribute → Option String
  | [] => none
  | .map name :: _ => some name
  | _ :: rest => firstMapModelAttr rest

/-- Embedding of `Model::table_name`: the first `Map` model attribute, else
the model name. -/
def Model.tableName (m : Model) : String :=
  (firstMapModelAttr m.attributes).getD m.name

/-- The attribute scan of `Field::column_name`: the first `Map` field
attribute, if any. -/
def firstMapFieldAttr : List FieldAttribute → Option String
  | [] => none
  | .map name :: _ => some name
  | _ :: rest => firstMapFieldAttr rest

/-- Embedding of `Field::column_name`: the first `Map` field attribute, else
the field name. -/
def Field.columnName (f : Field) : String :=
  (firstMapFieldAttr f.attributes).getD f.name

/-! ## petrol-core/src/sql.rs : SQL DDL backend -/

/-- Embedding of `SqlType`. -/
inductive SqlType where
  | serial | bigSerial | integer | bigInt | float | decimal
  | text | boolean | timestamp | date | uuid | jsonb | bytes
  deriving DecidableEq, Repr

/-- Embedding of `SqlType::render`. -/
def SqlType.render : SqlType → String
  | .serial => "SERIAL"
  | .bigSerial => "BIGSERIAL"
  | .integer => "INTEGER"
  | .bigInt => "BIGINT"
  | .float => "DOUBLE PRECISION"
  | .decimal => "DECIMAL"
  | .text => "TEXT"
  | .boolean => "BOOLEAN"
  | .timestamp => "TIMESTAMPTZ"
  | .date => "DATE"
  | .uuid => "UUID"
  | .jsonb => "JSONB"
  | .bytes => "BYTEA"

/-- Embedding of `SqlColumn`. -/
structure SqlColumn where
  name : String
  sqlType : SqlType
  nullable : Bool
  default : Option String
  deriving DecidableEq, Repr

/-- Embedding of `SqlTable`. -/
structure SqlTable where
  name : String
  columns : List SqlColumn
  primaryKey : List String
  uniques : List (List String)
  deriving DecidableEq, Repr

/-- `matches!(attr, FieldAttribute::Default(DefaultValue::AutoIncrement))`. -/
def FieldAttribute.isAutoIncrementDefault : FieldAttribute → Bool
  | .default .autoIncrement => true
  | _ => false

/-- Embedding of `has_autoincrement` (sql.rs). -/
def hasAutoincrement (field : Field) : Bool :=
  field.attributes.any FieldAttribute.isAutoIncrementDefault

/-- Embedding of `scalar_to_sql_type` (sql.rs). -/
def scalarToSqlType (scalar : ScalarType) (field : Field) : SqlType :=
  match scalar with
  | .int => if hasAutoincrement field then .serial else .integer
  | .bigInt => if hasAutoincrement field then .bigSerial else .bigInt
  | .float => .float
  | .decimal => .decimal
  | .string => .text
  | .boolean => .boolean
  | .dateTime => .timestamp
  | .date => .date
  | .uuid => .uuid
  | .json => .jsonb
  | .bytes => .bytes

/-- Rust `bool` `Display` (used by `v.to_string()` in `default_clause`). -/
def boolToString (b : Bool) : String := if b then "true" else "false"

/-- Whitespace recognized by `str::trim` (ASCII subset; the DSL and all
texts handled here are ASCII). -/
def isWsChar (c : Char) : Bool := c = ' ' || c = '\t' || c = '\n' || c = '\r'

/-- `str::trim` on a character list. -/
def trimChars (cs : List Char) : List Char :=
  ((cs.dropWhile isWsChar).reverse.dropWhile isWsChar).reverse

/-- Rust `str::trim`. -/
def rustTrim (s : String) : String := String.mk (trimChars s.toList)

/-- One replacement pass of `str::replace`, fuelled by the input length:
non-overlapping occurrences are replaced left to right. -/
def replaceAux (pat sub : List Char) : Nat → List Char → List Char
  | _, [] => []
  | 0, cs => cs
  | Nat.succ fuel, c :: cs =>
      if pat.isPrefixOf (c :: cs) then
        sub ++ replaceAux pat sub fuel ((c :: cs).drop pat.length)
      else
        c :: replaceAux pat sub fuel cs

/-- Rust `str::replace(pat, sub)` (the only pattern used in the sources is
the non-empty `\"`; an empty pattern is returned unchanged). -/
def strReplace (s pat sub : String) : String :=
  if pat.toList.isEmpty then s
  else String.mk (replaceAux pat.toList sub.toList s.toList.length s.toList)

/-- Splitting on a single separator character (`str::split(c)`): the empty
string yields one empty piece, like Rust's and Lean's splitters. -/
def splitOnCharAux (sep : Char) : List Char → List Char → List (List Char)
  | [], acc => [acc.reverse]
  | c :: cs, acc =>
      if c = sep then acc.reverse :: splitOnCharAux sep cs []
      else splitOnCharAux sep cs (c :: acc)

/-- `str::split(sep)` collected into a list. -/
def splitOnChar (s : String) (sep : Char) : List String :=
  (splitOnCharAux sep s.toList []).map String.mk

/-- `str::starts_with` for a string pattern. -/
def strStartsWith (s pre : String) : Bool := pre.toList.isPrefixOf s.toList

/-- `str::ends_with` for a string pattern. -/
def strEndsWith (s suf : String) : Bool := suf.toList.isSuffixOf s.toList

/-- `str::contains(c)` for a character pattern. -/
def strContainsChar (s : String) (c : Char) : Bool := s.toList.any fun x => x = c

/-- Emptiness of a string via its character list. -/
def strIsEmpty (s : String) : Bool := s.toList.isEmpty

/-- Drop the first `n` characters. -/
def strDrop (s : String) (n : Nat) : String := String.mk (s.toList.drop n)

/-- Drop the last `n` characters. -/
def strDropRight (s : String) (n : Nat) : String :=
  String.mk ((s.toList.reverse.drop n).reverse)

/-- The attribute loop of `default_clause` (sql.rs): the first `Default`
attribute, in attribute order, determines the rendered DEFAULT expression.
The `Float` case renders the carried literal text (standing in for the
`f64` `Display` output). -/
def defaultClauseLoop : List FieldAttribute → Option String
  | [] => none
  | .default value :: _ =>
      (match value with
       | .autoIncrement => none
       | .uuid => some "uuid_generate_v4()"
       | .now => some "now()"
       | .boolean v => some (boolToString v)
       | .int v => some (toString v)
       | .float v => some v
       | .string v => some ("'" ++ strReplace v "'" "''" ++ "'"))
  | _ :: rest => defaultClauseLoop rest

/-- Embedding of `default_clause` (sql.rs). -/
def defaultClause (field : Field) : Option String :=
  defaultClauseLoop field.attributes

/-- Embedding of `SqlColumn::from_field`: scalar fields yield a column,
relation fields yield `none`. -/
def SqlColumn.fromField (field : Field) : Option SqlColumn :=
  match field.type with
  | .scalar scalar modifiers =>
      some { name := field.columnName
             sqlType := scalarToSqlType scalar field
             nullable := modifiers.optional
             default := defaultClause field }
  | .relation _ => none

/-- Embedding of `SqlColumn::to_sql`. -/
def SqlColumn.toSql (c : SqlColumn) : String :=
  let fragment := "  \"" ++ c.name ++ "\" " ++ c.sqlType.render
  let fragment := if !c.nullable then fragment ++ " NOT NULL" else fragment
  match c.default with
  | some d => fragment ++ " DEFAULT " ++ d
  | none => fragment

/-- `matches!(attr, FieldAttribute::Id)` test used in `SqlTable::from_model`. -/
def fieldHasId (field : Field) : Bool :=
  field.attributes.any FieldAttribute.isId

/-- `matches!(attr, FieldAttribute::Unique)` test used in `SqlTable::from_model`. -/
def fieldHasUnique (field : Field) : Bool :=
  field.attributes.any fun a => match a with
    | .unique => true
    | _ => false

/-- The per-field loop body of `SqlTable::from_model`, accumulating columns,
primary-key names and single-field unique groups in field order. -/
def fromModelLoop : List Field → List SqlColumn × List String × List (List String)
  | [] => ([], [], [])
  | field :: rest =>
      let acc := fromModelLoop rest
      ((match SqlColumn.fromField field with
        | some column => column :: acc.1
        | none => acc.1),
       (if fieldHasId field then field.columnName :: acc.2.1 else acc.2.1),
       (if fieldHasUnique field then [field.columnName] :: acc.2.2 else acc.2.2))

/-- The model-attribute loop of `SqlTable::from_model`: model-level `Unique`
attributes append their field lists. -/
def modelUniqueGroups (attrs : List ModelAttribute) : List (List String) :=
  attrs.filterMap fun a => match a with
    | .unique fields => some fields
    | _ => none

/-- Embedding of `SqlTable::from_model`. -/
def SqlTable.fromModel (model : Model) : SqlTable :=
  let acc := fromModelLoop model.fields
  { name := model.tableName
    columns := acc.1
    primaryKey := acc.2.1
    uniques := acc.2.2 ++ modelUniqueGroups model.attributes }

/-- `"\"name\""` quoting used for identifier lists in `SqlTable::to_sql`. -/
def quoteIdent (name : String) : String := "\"" ++ name ++ "\""

/-- Embedding of `SqlTable::to_sql`. -/
def SqlTable.toSql (t : SqlTable) : String :=
  let columnFragments := t.columns.map SqlColumn.toSql
  let columnFragments :=
    if !t.primaryKey.isEmpty then
      columnFragments ++
        ["PRIMARY KEY (" ++ String.intercalate ", " (t.primaryKey.map quoteIdent) ++ ")"]
    else columnFragments
  let columnFragments := columnFragments ++
    t.uniques.map fun u =>
      "UNIQUE (" ++ String.intercalate ", " (u.map quoteIdent) ++ ")"
  "CREATE TABLE IF NOT EXISTS \"" ++ t.name ++ "\" (\n" ++
    String.intercalate ",\n" columnFragments ++ "\n);\n"

/-- Embedding of `schema_to_tables` (sql.rs). -/
def schemaToTables (schema : Schema) : List SqlTable :=
  schema.models.map SqlTable.fromModel

/-! ## petrol-codegen/src/lib.rs : code-generation backend

`quote!` token streams are embedded as strings (token spacing abstracted);
the `panic!` in `scalar_rust_type` is embedded as `Option.none` so that
reachability of the panic is provable.  `to_snake_case` comes from the
external `inflector` crate and is embedded by its documented behavior
(lower-case the string, inserting an underscore before each interior
upper-case letter); no claim depends on its exact output. -/

/-- `inflector::cases::snakecase::to_snake_case` (external dependency). -/
def toSnakeCase (s : String) : String :=
  let rec go : List Char → Bool → List Char
    | [], _ => []
    | c :: cs, first =>
        if c.isUpper then
          (if first then [c.toLower] else ['_', c.toLower]) ++ go cs false
        else c :: go cs false
  String.mk (go s.toList true)

/-- Rust `Iterator::collect::<Option<Vec<_>>>`: first `None` wins,
structurally recursive. -/
def mapMOption {α β : Type} (f : α → Option β) : List α → Option (List β)
  | [] => some []
  | a :: rest =>
      match f a with
      | none => none
      | some b =>
          match mapMOption f rest with
          | none => none
          | some bs => some (b :: bs)

/-- Rust `Iterator::collect::<Result<Vec<_>, E>>`: first error wins,
structurally recursive. -/
def mapMExcept {ε α β : Type} (f : α → Except ε β) : List α → Except ε (List β)
  | [] => .ok []
  | a :: rest =>
      match f a with
      | .error e => .error e
      | .ok b =>
          match mapMExcept f rest with
          | .error e => .error e
          | .ok bs => .ok (b :: bs)

/-- `matches!(field.r#type, FieldType::Scalar(_, _))` from `render_model_module`. -/
def FieldType.isScalar : FieldType → Bool
  | .scalar _ _ => true
  | .relation _ => false

/-- The base-type table inside `scalar_rust_type` (codegen lib.rs). -/
def rustBaseType : ScalarType → String
  | .int => "i32"
  | .bigInt => "i64"
  | .float => "f64"
  | .decimal => "rust_decimal::Decimal"
  | .string => "String"
  | .boolean => "bool"
  | .dateTime => "chrono::DateTime<chrono::Utc>"
  | .date => "chrono::NaiveDate"
  | .uuid => "uuid::Uuid"
  | .json => "serde_json::Value"
  | .bytes => "Vec<u8>"

/-- Embedding of `scalar_rust_type` (codegen lib.rs): `none` embeds the
`panic!("relation fields not supported here")` branch. -/
def scalarRustType (field : Field) : Option String :=
  match field.type with
  | .scalar scalar modifiers =>
      let base := rustBaseType scalar
      let ty := if modifiers.list then "Vec<" ++ base ++ ">" else base
      some (if modifiers.optional then "Option<" ++ ty ++ ">" else ty)
  | .relation _ => none

/-- Embedding of `render_struct_field` (codegen lib.rs). -/
def renderStructField (field : Field) : Option String :=
  (scalarRustType field).map fun ty =>
    let serdeAttr :=
      if field.columnName != field.name then
        "#[serde(rename = \"" ++ field.columnName ++ "\")] "
      else ""
    serdeAttr ++ "pub " ++ toSnakeCase field.name ++ ": " ++ ty

/-- The module-level output of `render_model_module`, kept structured so the
member list is inspectable. -/
structure RenderedModule where
  moduleName : String
  structName : String
  structFields : List String
  deriving DecidableEq, Repr

/-- Embedding of `render_model_module` (codegen lib.rs): fields are filtered
to the `Scalar` variant before rendering; a `none` result would mean a
rendered field panicked. -/
def renderModelModule (model : Model) : Option RenderedModule :=
  let fields := model.fields.filter fun f => f.type.isScalar
  match mapMOption renderStructField fields with
  | none => none
  | some structFields =>
      some { moduleName := toSnakeCase model.name
             structName := model.name
             structFields := structFields }

/-- Module text of one rendered model namespace. -/
def RenderedModule.renderText (m : RenderedModule) : String :=
  "pub mod " ++ m.moduleName ++
    " \x7b use super::*; #[derive(Debug, Clone, Serialize, Deserialize)] pub struct " ++
    m.structName ++ " \x7b " ++ String.intercalate " , " m.structFields ++ " \x7d \x7d"

/-- Embedding of `GenerateOptions`. -/
structure GenerateOptions where
  moduleName : String
  deriving DecidableEq, Repr

/-- `GenerateOptions::default`. -/
def GenerateOptions.defaultOptions : GenerateOptions := { moduleName := "petrol" }

/-- Embedding of `generate_with_options` (codegen lib.rs).  The outer
`Option` embeds panic-freedom: `none` means some rendering step reached the
`panic!` branch; `some` carries the Rust function's `Result`. -/
def generateWithOptions (schema : Schema) (options : GenerateOptions) :
    Option (Except PetrolError String) :=
  if schema.models.isEmpty then
    some (.error (.validation "schema contains no models"))
  else
    match mapMOption renderModelModule schema.models with
    | none => none
    | some modules =>
        let reExports := schema.models.map fun model =>
          "pub use self::" ++ options.moduleName ++ "::" ++ toSnakeCase model.name ++
            "::" ++ model.name ++ " ;"
        some (.ok
          ("pub mod " ++ options.moduleName ++
            " \x7b use serde::\x7bDeserialize, Serialize\x7d; " ++
            String.intercalate " " (modules.map RenderedModule.renderText) ++
            " \x7d " ++ String.intercalate " " reExports))

/-- Embedding of `generate` (codegen lib.rs). -/
def generate (schema : Schema) : Option (Except PetrolError String) :=
  generateWithOptions schema GenerateOptions.defaultOptions

/-! ## petrol-core/src/schema.rs : serializer (the `Display` impls)

Each `render` function below reproduces the corresponding `Display` impl
character for character (`writeln!` appends a newline).  The
`DefaultValue::Float` case again renders its carried literal text. -/

/-- `Display for ScalarType`. -/
def ScalarType.render : ScalarType → String
  | .int => "Int"
  | .bigInt => "BigInt"
  | .float => "Float"
  | .decimal => "Decimal"
  | .string => "String"
  | .boolean => "Boolean"
  | .dateTime => "DateTime"
  | .date => "Date"
  | .uuid => "Uuid"
  | .json => "Json"
  | .bytes => "Bytes"

/-- `TypeModifiers::optional_suffix`. -/
def TypeModifiers.optionalSuffix (m : TypeModifiers) : String :=
  if m.optional then "?" else ""

/-- `TypeModifiers::list_suffix`. -/
def TypeModifiers.listSuffix (m : TypeModifiers) : String :=
  if m.list then "[]" else ""

/-- `Display for FieldType`. -/
def FieldType.render : FieldType → String
  | .scalar sc mods => sc.render ++ mods.optionalSuffix ++ mods.listSuffix
  | .relation info =>
      info.model ++ info.modifiers.optionalSuffix ++ info.modifiers.listSuffix

/-- `Display for DefaultValue`. -/
def DefaultValue.render : DefaultValue → String
  | .autoIncrement => "autoincrement()"
  | .uuid => "uuid()"
  | .now => "now()"
  | .boolean value => boolToString value
  | .int value => toString value
  | .float text => text
  | .string value => "\"" ++ value ++ "\""

/-- `Display for FieldAttribute`. -/
def FieldAttribute.render : FieldAttribute → String
  | .id => "@id"
  | .unique => "@unique"
  | .updatedAt => "@updatedAt"
  | .map name => "@map(\"" ++ name ++ "\")"
  | .relation attr =>
      "@relation(fields: [" ++ String.intercalate ", " attr.fields ++
        "], references: [" ++ String.intercalate ", " attr.references ++ "])"
  | .default value => "@default(" ++ value.render ++ ")"

/-- `Display for Field`. -/
def Field.render (f : Field) : String :=
  f.name ++ " " ++ f.type.render ++
    String.join (f.attributes.map fun a => " " ++ a.render)

/-- `Display for ModelAttribute`. -/
def ModelAttribute.render : ModelAttribute → String
  | .map name => "@@map(\"" ++ name ++ "\")"
  | .unique fields => "@@unique([" ++ String.intercalate ", " fields ++ "])"
  | .index fields => "@@index([" ++ String.intercalate ", " fields ++ "])"

/-- The model section of `Display for Schema`. -/
def Model.render (m : Model) : String :=
  "model " ++ m.name ++ " \x7b\n" ++
    String.join (m.fields.map fun f => "  " ++ f.render ++ "\n") ++
    String.join (m.attributes.map fun a => "  " ++ a.render ++ "\n") ++
    "\x7d\n\n"

/-- `Display for Schema` (the serializer). -/
def Schema.render (s : Schema) : String :=
  "datasource " ++ s.datasource.name ++ " \x7b\n" ++
    "  provider = \"" ++ s.datasource.provider ++ "\"\n" ++
    (match s.datasource.rawUrl with
     | some url => "  url      = " ++ url ++ "\n"
     | none => "  url      = env(\"DATABASE_URL\")\n") ++
    (match s.datasource.connectionLimit with
     | some limit => "  connectionLimit = " ++ toString limit ++ "\n"
     | none => "") ++
    (match s.datasource.poolTimeoutSeconds with
     | some timeout => "  poolTimeout     = " ++ toString timeout ++ "\n"
     | none => "") ++
    "\x7d\n\n" ++
  "generator " ++ s.generator.name ++ " \x7b\n" ++
    "  provider = \"" ++ s.generator.provider ++ "\"\n" ++
    (match s.generator.output with
     | some output => "  output   = \"" ++ output ++ "\"\n"
     | none => "") ++
    "\x7d\n\n" ++
  String.join (s.models.map Model.render)

/-! ## petrol-parser/src/lib.rs : string helpers -/

/-- Rust `str::trim_start_matches(c)` for a single-character pattern. -/
def trimStartMatchesChar (s : String) (c : Char) : String :=
  String.mk (s.toList.dropWhile fun x => x = c)

/-- Rust `str::trim_end_matches(c)` for a single-character pattern. -/
def trimEndMatchesChar (s : String) (c : Char) : String :=
  String.mk ((s.toList.reverse.dropWhile fun x => x = c).reverse)

/-- Rust `str::trim_matches(c)` for a single-character pattern. -/
def trimMatchesChar (s : String) (c : Char) : String :=
  trimEndMatchesChar (trimStartMatchesChar s c) c

/-- Embedding of `unquote` (parser lib.rs). -/
def unquote (value : String) : String :=
  strReplace (trimEndMatchesChar (trimStartMatchesChar (rustTrim value) '"') '"') "\\\"" "\""

/-- Embedding of `trim_parens` (parser lib.rs).  Note the order of
operations: ALL leading `(` and ALL trailing `)` characters are stripped,
so the output can never end in `)`. -/
def trimParens (value : String) : String :=
  rustTrim (trimEndMatchesChar (trimStartMatchesChar (rustTrim value) '(') ')')

/-- Embedding of `parse_field_list` (parser lib.rs). -/
def parseFieldList (raw : String) : List String :=
  (splitOnChar (trimEndMatchesChar (trimStartMatchesChar (rustTrim raw) '[') ']') ',').filterMap
    fun item =>
      let trimmed := rustTrim item
      if strIsEmpty trimmed then none else some (trimMatchesChar trimmed '"')

/-- Digit run of a decimal literal: `some n` when the characters are one or
more ASCII digits, `none` otherwise. -/
def decDigits : List Char → Option Nat
  | [] => none
  | cs =>
      if cs.all Char.isDigit then
        some (cs.foldl (fun acc c => acc * 10 + (c.toNat - 48)) 0)
      else none

/-- Rust `str::parse::<u32>()`: optional `+` sign, one or more digits,
value within the `u32` range. -/
def parseU32 (s : String) : Option Nat :=
  let cs := match s.toList with
    | '+' :: rest => rest
    | cs => cs
  match decDigits cs with
  | some n => if n ≤ 4294967295 then some n else none
  | none => none

/-- Rust `str::parse::<i64>()`: optional sign, one or more digits, value
within the `i64` range. -/
def parseI64 (s : String) : Option Int :=
  match s.toList with
  | '+' :: rest =>
      match decDigits rest with
      | some n => if n ≤ 9223372036854775807 then some (Int.ofNat n) else none
      | none => none
  | '-' :: rest =>
      match decDigits rest with
      | some n => if n ≤ 9223372036854775808 then some (-(Int.ofNat n)) else none
      | none => none
  | cs =>
      match decDigits cs with
      | some n => if n ≤ 9223372036854775807 then some (Int.ofNat n) else none
      | none => none

/-- Exponent suffix of Rust's `f64` literal grammar: empty, or
`e`/`E`, optional sign, one or more digits. -/
def f64ExpOk : List Char → Bool
  | [] => true
  | c :: rest =>
      (c = 'e' || c = 'E') &&
        (let rest2 := match rest with
          | '+' :: r => r
          | '-' :: r => r
          | _ => rest
         !rest2.isEmpty && rest2.all Char.isDigit)

/-- Number body of Rust's `f64` grammar:
`Digit+ ('.' Digit*)? Exp? | Digit* '.' Digit+ Exp?`. -/
def f64NumberOk (cs : List Char) : Bool :=
  let (intPart, rest) := cs.span Char.isDigit
  match rest with
  | '.' :: rest2 =>
      let (fracPart, rest3) := rest2.span Char.isDigit
      (!intPart.isEmpty || !fracPart.isEmpty) && f64ExpOk rest3
  | _ => !intPart.isEmpty && f64ExpOk rest

/-- Acceptance grammar of Rust `str::parse::<f64>()` (`f64::from_str`):
optional sign, then a case-insensitive `inf`/`infinity`/`nan` keyword or a
decimal number with optional fraction and exponent.  Overflow never fails,
so acceptance is purely syntactic. -/
def rustF64Accepts (s : String) : Bool :=
  let cs := match s.toList with
    | '+' :: rest => rest
    | '-' :: rest => rest
    | cs => cs
  let lower := String.mk (cs.map Char.toLower)
  lower = "inf" || lower = "infinity" || lower = "nan" || f64NumberOk cs

/-- Embedding of `ParserError` (parser lib.rs); `Pest` and `Io` payloads
are opaque message strings. -/
inductive ParserError where
  | pest (msg : String)
  | petrol (e : PetrolError)
  | io (msg : String)
  deriving DecidableEq, Repr

/-- Embedding of `parse_default` (parser lib.rs).  A successful float
parse stores the literal text (standing in for the parsed `f64`). -/
def parseDefault (raw : String) : Except ParserError DefaultValue :=
  let trimmed := rustTrim raw
  if strEndsWith trimmed "()" then
    if trimmed = "autoincrement()" then .ok .autoIncrement
    else if trimmed = "uuid()" then .ok .uuid
    else if trimmed = "now()" then .ok .now
    else .error (.petrol (.unsupported ("unknown default " ++ trimmed)))
  else if strStartsWith trimmed "\"" then
    .ok (.string (unquote trimmed))
  else if trimmed == "true" || trimmed == "false" then
    .ok (.boolean (trimmed == "true"))
  else if strContainsChar trimmed '.' then
    if rustF64Accepts trimmed then .ok (.float trimmed)
    else .error (.petrol (.validation "invalid float default"))
  else
    match parseI64 trimmed with
    | some v => .ok (.int v)
    | none => .error (.petrol (.validation "invalid int default"))

/-- Embedding of `parse_relation_attribute` (parser lib.rs): split on
commas, then on the first colon of each segment. -/
def parseRelationAttribute (raw : String) : Except ParserError RelationAttribute :=
  let step := fun (acc : List String × List String) (segment : String) =>
    match splitOnChar segment ':' with
    | key :: value :: _ =>
        let key := rustTrim key
        let value := rustTrim value
        if key = "fields" then (parseFieldList value, acc.2)
        else if key = "references" then (acc.1, parseFieldList value)
        else acc
    | _ => acc
  let (fields, references) := (splitOnChar raw ',').foldl step ([], [])
  .ok { fields := fields, references := references }

/-- Embedding of `parse_scalar` (parser lib.rs). -/
def parseScalar : String → Option ScalarType
  | "Int" => some .int
  | "BigInt" => some .bigInt
  | "Float" => some .float
  | "Decimal" => some .decimal
  | "String" => some .string
  | "Boolean" => some .boolean
  | "DateTime" => some .dateTime
  | "Date" => some .date
  | "Uuid" => some .uuid
  | "Json" => some .json
  | "Bytes" => some .bytes
  | _ => none

/-! ## Parse-tree shape

Modelled from the spec: the grammar file (`schema.pest`) referenced by
`#[grammar = "schema.pest"]` is absent from the sources, so the shape of
the concrete parse tree is reconstructed from §4.1 of the specification
("block := keyword, identifier, `\x7b`, entries, `\x7d`; entry := key
`=` value; field := identifier, type-expression, attribute*;
type-expression := identifier, optional `?`, optional `[]`; attribute :=
`@`identifier, optional parenthesized argument text; string/number/
identifier tokens; env-reference calls") and from how the converter in
parser lib.rs consumes pest pairs.  `as_str` of a pair is the raw matched
text, so string values keep their quotes, an attribute's argument pair
keeps its surrounding parentheses, and an `env_call` pair's inner string
pair (when present) keeps its quotes. -/

/-- An entry's value pair: a quoted `string` token, an `env_call` with an
optional inner raw string token, or a bare `number` token. -/
inductive ValueAst where
  | str (raw : String)
  | envCall (inner : Option String)
  | number (raw : String)
  deriving DecidableEq, Repr

/-- `as_str()` of a value pair (the raw matched text). -/
def ValueAst.asStr : ValueAst → String
  | .str raw => raw
  | .envCall inner => "env(" ++ inner.getD "" ++ ")"
  | .number raw => raw

/-- A `key = value` entry pair inside a datasource/generator block. -/
structure EntryAst where
  key : String
  value : Option ValueAst
  deriving DecidableEq, Repr

/-- A datasource or generator block pair: name, then entry pairs. -/
structure BlockAst where
  name : String
  entries : List EntryAst
  deriving DecidableEq, Repr

/-- `optional` / `list` suffix tokens of a type expression. -/
inductive TypeTokenAst where
  | optional
  | list
  deriving DecidableEq, Repr

/-- A type-expression pair: identifier, then suffix tokens. -/
structure TypeAst where
  ident : String
  tokens : List TypeTokenAst
  deriving DecidableEq, Repr

/-- An attribute pair: identifier, and the raw parenthesized argument text
(including the parentheses), when present. -/
structure AttrAst where
  ident : String
  args : Option String
  deriving DecidableEq, Repr

/-- A field pair: name, type expression, attribute pairs. -/
structure FieldAst where
  name : String
  type : TypeAst
  attrs : List AttrAst
  deriving DecidableEq, Repr

/-- An item inside a model block: a field line or a `@@` model attribute. -/
inductive ModelItemAst where
  | field (f : FieldAst)
  | modelAttr (a : AttrAst)
  deriving DecidableEq, Repr

/-- A model block pair: name, then items. -/
structure ModelAst where
  name : String
  items : List ModelItemAst
  deriving DecidableEq, Repr

/-- A top-level pair of the `schema` rule. -/
inductive TopAst where
  | datasource (b : BlockAst)
  | generator (b : BlockAst)
  | model (m : ModelAst)
  deriving DecidableEq, Repr

/-! ## petrol-parser/src/lib.rs : tree-to-IR converter -/

/-- Embedding of `parse_env_call` (parser lib.rs): the unquoted inner
string if present, else the literal name `DATABASE_URL`. -/
def parseEnvCall (inner : Option String) : String :=
  match inner with
  | some raw => unquote raw
  | none => "DATABASE_URL"

/-- Embedding of `parse_string` (parser lib.rs). -/
def parseStringOpt (value : Option ValueAst) : Except ParserError String :=
  match value with
  | some p => .ok (unquote p.asStr)
  | none => .error (.petrol (.validation "expected string"))

/-- One iteration of the entry loop in `parse_datasource`. -/
def applyDatasourceEntry (block : DatasourceBlock) (e : EntryAst) :
    Except ParserError DatasourceBlock :=
  match e.key with
  | "provider" => do
      let p ← parseStringOpt e.value
      .ok { block with provider := p }
  | "url" =>
      match e.value with
      | some (.envCall inner) =>
          .ok { block with
                  url := some (parseEnvCall inner)
                  rawUrl := some "env(\"DATABASE_URL\")" }
      | some (.str raw) =>
          .ok { block with url := some (unquote raw), rawUrl := some raw }
      | _ => .ok block
  | "connectionLimit" =>
      .ok { block with connectionLimit := e.value.bind fun v => parseU32 v.asStr }
  | "poolTimeout" =>
      .ok { block with poolTimeoutSeconds := e.value.bind fun v => parseU32 v.asStr }
  | _ => .ok block

/-- Embedding of `parse_datasource` (parser lib.rs). -/
def parseDatasource (pair : BlockAst) : Except ParserError DatasourceBlock :=
  pair.entries.foldlM applyDatasourceEntry
    { name := pair.name
      provider := "postgresql"
      url := none
      rawUrl := none
      connectionLimit := none
      poolTimeoutSeconds := none }

/-- One iteration of the entry loop in `parse_generator`. -/
def applyGeneratorEntry (block : GeneratorBlock) (e : EntryAst) :
    Except ParserError GeneratorBlock :=
  match e.key with
  | "provider" => do
      let p ← parseStringOpt e.value
      .ok { block with provider := p }
  | "output" =>
      .ok { block with output := e.value.map fun v => unquote v.asStr }
  | _ => .ok block

/-- Embedding of `parse_generator` (parser lib.rs). -/
def parseGenerator (pair : BlockAst) : Except ParserError GeneratorBlock :=
  pair.entries.foldlM applyGeneratorEntry
    { name := pair.name, provider := "petrol-client-rust", output := none }

/-- Embedding of `parse_field_type` (parser lib.rs): a recognized scalar
identifier yields `Scalar`, anything else a `Relation` reference. -/
def parseFieldType (pair : TypeAst) : Except ParserError FieldType :=
  let modifiers := pair.tokens.foldl
    (fun (m : TypeModifiers) tok =>
      match tok with
      | .optional => { m with optional := true }
      | .list => { m with list := true })
    { optional := false, list := false }
  match parseScalar pair.ident with
  | some scalar => .ok (.scalar scalar modifiers)
  | none =>
      .ok (.relation { model := pair.ident, modifiers := modifiers, attributes := [] })

/-- Embedding of `parse_field_attribute` (parser lib.rs). -/
def parseFieldAttribute (pair : AttrAst) : Except ParserError FieldAttribute :=
  let args := pair.args.map trimParens
  match pair.ident with
  | "id" => .ok .id
  | "unique" => .ok .unique
  | "updatedAt" => .ok .updatedAt
  | "map" => .ok (.map ((args.map unquote).getD ""))
  | "default" => do
      let v ← parseDefault (args.getD "")
      .ok (.default v)
  | "relation" => do
      let r ← parseRelationAttribute (args.getD "")
      .ok (.relation r)
  | other => .ok (.map (other ++ ":" ++ args.getD ""))

/-- Embedding of `parse_model_attribute` (parser lib.rs). -/
def parseModelAttribute (pair : AttrAst) : Except ParserError ModelAttribute :=
  let args := (pair.args.map trimParens).getD ""
  match pair.ident with
  | "map" => .ok (.map (unquote args))
  | "unique" => .ok (.unique (parseFieldList args))
  | "index" => .ok (.index (parseFieldList args))
  | other => .ok (.map (other ++ ":" ++ args))

/-- Embedding of `parse_field` (parser lib.rs). -/
def parseField (pair : FieldAst) : Except ParserError Field := do
  let fieldType ← parseFieldType pair.type
  let attributes ← mapMExcept parseFieldAttribute pair.attrs
  .ok { name := pair.name, type := fieldType, attributes := attributes }

/-- The item loop of `parse_model`: fields and model attributes are
collected in declaration order. -/
def parseModelItems :
    List ModelItemAst → Except ParserError (List Field × List ModelAttribute)
  | [] => .ok ([], [])
  | .field f :: rest => do
      let field ← parseField f
      let (fields, attrs) ← parseModelItems rest
      .ok (field :: fields, attrs)
  | .modelAttr a :: rest => do
      let attr ← parseModelAttribute a
      let (fields, attrs) ← parseModelItems rest
      .ok (fields, attr :: attrs)

/-- Embedding of `parse_model` (parser lib.rs). -/
def parseModel (pair : ModelAst) : Except ParserError Model := do
  let (fields, attributes) ← parseModelItems pair.items
  .ok { name := pair.name, fields := fields, attributes := attributes }

/-- The top-level pair loop of `parse_schema`: a later datasource/generator
block replaces an earlier one, models accumulate in order. -/
def convertTops :
    List TopAst →
      Except ParserError (Option DatasourceBlock × Option GeneratorBlock × List Model)
  | [] => .ok (none, none, [])
  | .datasource b :: rest => do
      let d ← parseDatasource b
      let (dlast, g, ms) ← convertTops rest
      .ok (dlast <|> some d, g, ms)
  | .generator b :: rest => do
      let g2 ← parseGenerator b
      let (d, glast, ms) ← convertTops rest
      .ok (d, glast <|> some g2, ms)
  | .model m :: rest => do
      let model ← parseModel m
      let (d, g, ms) ← convertTops rest
      .ok (d, g, model :: ms)

/-- Embedding of the tail of `parse_schema`: assemble the `Schema`, insist
on the required blocks, then validate. -/
def parseSchemaFromTops (tops : List TopAst) : Except ParserError Schema :=
  match convertTops tops with
  | .error e => .error e
  | .ok (dsOpt, genOpt, models) =>
      match dsOpt with
      | none => .error (.petrol (.validation "missing datasource block"))
      | some ds =>
          match genOpt with
          | none => .error (.petrol (.validation "missing generator block"))
          | some gen =>
              match Schema.validate { datasource := ds, generator := gen, models := models } with
              | .ok _ => .ok { datasource := ds, generator := gen, models := models }
              | .error e => .error (.petrol e)

/-! ## Grammar layer (text → parse tree)

Modelled from the spec: the pest grammar file `schema.pest` is absent from
the sources, so this layer realizes §4.1's rules directly — blocks are
keyword/identifier/braced bodies, entries are `key = value` lines, fields
are identifier, type expression (identifier then optional `?` then
optional `[]`), then attributes (`@`identifier with optional parenthesized
argument text, parentheses captured as part of the matched text, balanced
to support nested calls), `@@` introduces a model attribute, and `//`
starts a comment line. -/

/-- The two brace characters (kept out of character literals). -/
def lbrace : Char := Char.ofNat 123

/-- Closing brace character. -/
def rbrace : Char := Char.ofNat 125

/-- A block header line: keyword, block name, opening brace. -/
def parseHeader (t : String) : Option (String × String) :=
  match (splitOnChar t ' ').filter (fun w => !strIsEmpty w) with
  | [kw, name, brace] =>
      if brace = "\x7b" && (kw = "datasource" || kw = "generator" || kw = "model") then
        some (kw, name)
      else none
  | _ => none

/-- Line-structured block grouping: outside a block only blank lines,
comment lines and block headers may appear; inside a block, a lone closing
brace ends it and every other non-blank line is body text (kept trimmed). -/
def groupBlocksAux :
    Option (String × String × List String) →
      List (String × String × List String) →
      List String → Except ParserError (List (String × String × List String))
  | none, acc, [] => .ok acc.reverse
  | some _, _, [] => .error (.pest "unclosed block")
  | none, acc, line :: rest =>
      let t := rustTrim line
      if strIsEmpty t || strStartsWith t "//" then groupBlocksAux none acc rest
      else
        match parseHeader t with
        | some (kw, name) => groupBlocksAux (some (kw, name, [])) acc rest
        | none => .error (.pest ("expected block header: " ++ t))
  | some (kw, name, body), acc, line :: rest =>
      let t := rustTrim line
      if t = "\x7d" then groupBlocksAux none ((kw, name, body.reverse) :: acc) rest
      else if strIsEmpty t || strStartsWith t "//" then
        groupBlocksAux (some (kw, name, body)) acc rest
      else groupBlocksAux (some (kw, name, t :: body)) acc rest

/-- Split a line at its first `=`. -/
def splitFirstEq : List Char → List Char → Option (String × String)
  | [], _ => none
  | '=' :: rest, acc => some (String.mk acc.reverse, String.mk rest)
  | c :: rest, acc => splitFirstEq rest (c :: acc)

/-- Classify an entry's value text into a value pair: a quoted string, an
`env(...)` call (inner string pair absent when the call is empty), or a
bare number token. -/
def classifyValue (v : String) : Option ValueAst :=
  if strIsEmpty v then none
  else if strStartsWith v "\"" then some (.str v)
  else if strStartsWith v "env(" && strEndsWith v ")" then
    let inner := rustTrim (strDropRight (strDrop v 4) 1)
    if strIsEmpty inner then some (.envCall none) else some (.envCall (some inner))
  else some (.number v)

/-- Parse one `key = value` entry line. -/
def parseEntryLine (line : String) : Except ParserError EntryAst :=
  match splitFirstEq line.toList [] with
  | some (k, v) => .ok { key := rustTrim k, value := classifyValue (rustTrim v) }
  | none => .error (.pest ("expected entry: " ++ line))

/-- Identifier characters of the DSL. -/
def isIdentChar (c : Char) : Bool := c.isAlphanum || c = '_'

/-- Consume characters up to the parenthesis balancing the already-consumed
opening one; returns the matched text (accumulated so far plus the closing
parenthesis) and the remainder. -/
def takeBalanced : List Char → Nat → List Char → Option (String × List Char)
  | [], _, _ => none
  | c :: cs, depth, acc =>
      if c = '(' then takeBalanced cs (depth + 1) (c :: acc)
      else if c = ')' then
        if depth = 1 then some (String.mk (c :: acc).reverse, cs)
        else takeBalanced cs (depth - 1) (c :: acc)
      else takeBalanced cs depth (c :: acc)

/-- Scan the attribute pairs of a field line (fuelled by the remaining
character count). -/
def parseAttrsAux : Nat → List Char → Except ParserError (List AttrAst)
  | 0, _ => .error (.pest "attribute scan fuel exhausted")
  | _, [] => .ok []
  | Nat.succ fuel, c :: cs =>
      if c = ' ' then parseAttrsAux fuel cs
      else if c = '@' then
        let (identChars, rest) := cs.span isIdentChar
        if identChars.isEmpty then .error (.pest "expected attribute identifier")
        else
          match rest with
          | '(' :: rest2 =>
              match takeBalanced rest2 1 ['('] with
              | some (args, rest3) => do
                  let attrs ← parseAttrsAux fuel rest3
                  .ok ({ ident := String.mk identChars, args := some args } :: attrs)
              | none => .error (.pest "unbalanced parentheses in attribute")
          | _ => do
              let attrs ← parseAttrsAux fuel rest
              .ok ({ ident := String.mk identChars, args := none } :: attrs)
      else .error (.pest "expected attribute")

/-- A type expression token: identifier, optional `?`, optional `[]`. -/
def parseTypeToken (cs : List Char) : Option TypeAst :=
  let (identChars, rest) := cs.span isIdentChar
  if identChars.isEmpty then none
  else
    let (tokens, rest2) :=
      match rest with
      | '?' :: r => ([TypeTokenAst.optional], r)
      | _ => (([] : List TypeTokenAst), rest)
    let (tokens2, rest3) :=
      match rest2 with
      | '[' :: ']' :: r => (tokens ++ [TypeTokenAst.list], r)
      | _ => (tokens, rest2)
    if rest3.isEmpty then some { ident := String.mk identChars, tokens := tokens2 }
    else none

/-- Parse one field line: name, type expression, attributes. -/
def parseFieldLine (t : String) : Except ParserError FieldAst :=
  let cs := t.toList
  let (nameChars, rest) := cs.span fun c => !(c = ' ')
  if nameChars.isEmpty then .error (.pest ("expected field name: " ++ t))
  else
    let rest := rest.dropWhile fun c => c = ' '
    let (typeChars, rest2) := rest.span fun c => !(c = ' ')
    match parseTypeToken typeChars with
    | none => .error (.pest ("expected field type: " ++ t))
    | some ty => do
        let attrs ← parseAttrsAux (rest2.length + 1) rest2
        .ok { name := String.mk nameChars, type := ty, attrs := attrs }

/-- Parse one `@@` model-attribute line. -/
def parseModelAttrLine (t : String) : Except ParserError AttrAst :=
  let cs := (strDrop t 2).toList
  let (identChars, rest) := cs.span isIdentChar
  if identChars.isEmpty then
    .error (.pest ("expected model attribute identifier: " ++ t))
  else
    match rest with
    | [] => .ok { ident := String.mk identChars, args := none }
    | '(' :: rest2 =>
        match takeBalanced rest2 1 ['('] with
        | some (args, rest3) =>
            if strIsEmpty (rustTrim (String.mk rest3)) then
              .ok { ident := String.mk identChars, args := some args }
            else .error (.pest ("unexpected text after model attribute: " ++ t))
        | none => .error (.pest "unbalanced parentheses in model attribute")
    | _ => .error (.pest ("malformed model attribute: " ++ t))

/-- Parse one model-body line: a `@@` model attribute or a field line. -/
def parseModelItemLine (t : String) : Except ParserError ModelItemAst :=
  if strStartsWith t "@@" then do
    let a ← parseModelAttrLine t
    .ok (.modelAttr a)
  else do
    let f ← parseFieldLine t
    .ok (.field f)

/-- Turn one grouped block into a top-level parse-tree pair. -/
def parseTopFromGroup : String × String × List String → Except ParserError TopAst
  | (kw, name, body) =>
      if kw = "datasource" then do
        let entries ← mapMExcept parseEntryLine body
        .ok (.datasource { name := name, entries := entries })
      else if kw = "generator" then do
        let entries ← mapMExcept parseEntryLine body
        .ok (.generator { name := name, entries := entries })
      else if kw = "model" then do
        let items ← mapMExcept parseModelItemLine body
        .ok (.model { name := name, items := items })
      else .error (.pest ("unknown block keyword: " ++ kw))

/-- Embedding of `parse_schema` (parser lib.rs): grammar layer, then the
tree-to-IR converter, then validation. -/
def parseSchemaText (input : String) : Except ParserError Schema :=
  match groupBlocksAux none [] (splitOnChar input '\n') with
  | .error e => .error e
  | .ok groups =>
      match mapMExcept parseTopFromGroup groups with
      | .error e => .error e
      | .ok tops => parseSchemaFromTops tops

/-! ## Auxiliary definitions for the statements -/

/-- Decidable equality for `Except`, for evaluating results on concrete
inputs. -/
instance instDecEqExcept {ε α : Type} [DecidableEq ε] [DecidableEq α] :
    DecidableEq (Except ε α) := fun a b =>
  match a, b with
  | .ok x, .ok y =>
      if h : x = y then .isTrue (by rw [h])
      else .isFalse (by intro hc; cases hc; exact h rfl)
  | .error x, .error y =>
      if h : x = y then .isTrue (by rw [h])
      else .isFalse (by intro hc; cases hc; exact h rfl)
  | .ok _, .error _ => .isFalse (by intro hc; cases hc)
  | .error _, .ok _ => .isFalse (by intro hc; cases hc)

/-- The first `Default` attribute's value, in attribute order (the one
`default_clause` renders). -/
def firstDefaultValue : List FieldAttribute → Option DefaultValue
  | [] => none
  | .default v :: _ => some v
  | _ :: rest => firstDefaultValue rest

/-! ## Concrete instances used by the theorems -/

/-- The `User` model of the concrete scenario (and of the CLI's own
`DEFAULT_SCHEMA` template): `id Int @id @default(autoincrement())`,
`email String @unique`, `username String?`,
`createdAt DateTime @default(now())`. -/
def userModel : Model :=
  { name := "User"
    fields :=
      [ { name := "id", type := .scalar .int { optional := false, list := false }
          attributes := [.id, .default .autoIncrement] }
      , { name := "email", type := .scalar .string { optional := false, list := false }
          attributes := [.unique] }
      , { name := "username", type := .scalar .string { optional := true, list := false }
          attributes := [] }
      , { name := "createdAt", type := .scalar .dateTime { optional := false, list := false }
          attributes := [.default .now] } ]
    attributes := [] }

/-- The concrete scenario schema: datasource `db`/`postgresql`, generator
`client`, one `User` model. -/
def s0 : Schema :=
  { datasource := { name := "db", provider := "postgresql", url := none, rawUrl := none
                    connectionLimit := none, poolTimeoutSeconds := none }
    generator := { name := "client", provider := "petrol-client-rust", output := none }
    models := [userModel] }

/-- The expected DDL statement of the concrete scenario. -/
def userTableSql : String :=
  "CREATE TABLE IF NOT EXISTS \"User\" (\n  \"id\" SERIAL NOT NULL,\n  \"email\" TEXT NOT NULL,\n  \"username\" TEXT,\n  \"createdAt\" TIMESTAMPTZ NOT NULL DEFAULT now(),\nPRIMARY KEY (\"id\"),\nUNIQUE (\"email\")\n);\n"

/-- A schema with an empty model list. -/
def emptySchema : Schema :=
  { datasource := s0.datasource, generator := s0.generator, models := [] }

/-- A model with an empty field list. -/
def noFieldsModel : Model := { name := "Empty", fields := [], attributes := [] }

/-- A model whose fields carry no `Id` attribute. -/
def noIdModel : Model :=
  { name := "NoId"
    fields := [{ name := "x", type := .scalar .int { optional := false, list := false }
                 attributes := [] }]
    attributes := [] }

/-- A field whose attribute list carries a literal `Default` before a
`Default(AutoIncrement)`. -/
def autoincAfterIntField : Field :=
  { name := "n", type := .scalar .int { optional := false, list := false }
    attributes := [.default (.int 5), .default .autoIncrement] }

/-- A relation-typed field. -/
def relField : Field :=
  { name := "author"
    type := .relation { model := "User"
                        modifiers := { optional := false, list := false }
                        attributes := [] }
    attributes := [] }

/-- A model mixing one scalar and one relation field. -/
def relModel : Model :=
  { name := "Post"
    fields :=
      [ { name := "id", type := .scalar .int { optional := false, list := false }
          attributes := [.id] }
      , relField ]
    attributes := [] }

/-- A datasource parse tree whose `url` entry is the call `env("MY_VAR")`. -/
def envUrlBlockAst : BlockAst :=
  { name := "db"
    entries := [{ key := "url", value := some (.envCall (some "\"MY_VAR\"")) }] }

/-- DSL text of a small schema that parses successfully (explicit quoted
url, one model with an `@id` field and no parenthesized defaults). -/
def simpleText : String :=
  "datasource db \x7b\n  provider = \"postgresql\"\n  url      = \"postgres://localhost\"\n\x7d\n\ngenerator client \x7b\n  provider = \"petrol-client-rust\"\n\x7d\n\nmodel User \x7b\n  id Int @id\n\x7d\n"

/-- The schema value `simpleText` parses to. -/
def simpleSchema : Schema :=
  { datasource := { name := "db", provider := "postgresql"
                    url := some "postgres://localhost"
                    rawUrl := some "\"postgres://localhost\""
                    connectionLimit := none, poolTimeoutSeconds := none }
    generator := { name := "client", provider := "petrol-client-rust", output := none }
    models := [{ name := "User"
                 fields := [{ name := "id"
                              type := .scalar .int { optional := false, list := false }
                              attributes := [.id] }]
                 attributes := [] }] }

/-! ## Helper lemmas -/

/-- A non-empty list is not `isEmpty`. -/
theorem isEmpty_false_of_ne_nil {α : Type} {l : List α} (h : l ≠ []) :
    l.isEmpty = false := by
  cases l with
  | nil => exact absurd rfl h
  | cons a t => rfl

/-- `Model::validate` succeeds exactly on models with a non-empty field
list containing an `Id`-attributed field. -/
theorem modelValidate_ok_iff (m : Model) :
    m.validate = .ok () ↔
      (m.fields ≠ [] ∧
        (m.fields.any fun f => f.attributes.any FieldAttribute.isId) = true) := by
  cases hf : m.fields with
  | nil => simp [Model.validate, hf]
  | cons a t =>
      cases hany : (a :: t).any (fun f => f.attributes.any FieldAttribute.isId) <;>
        simp [Model.validate, hf, hany]

/-- The model loop of `Schema::validate` succeeds exactly when every model
validates. -/
theorem validateModels_ok_iff (ms : List Model) :
    validateModels ms = .ok () ↔ ∀ m ∈ ms, m.validate = .ok () := by
  induction ms with
  | nil => simp [validateModels]
  | cons a t ih =>
      cases ha : a.validate with
      | error e => simp [validateModels, Bind.bind, Except.bind, ha]
      | ok u => cases u; simp [validateModels, Bind.bind, Except.bind, ha, ih]

/-- `Schema::validate` succeeds exactly on schemas with at least one model
in which every model has a field and an `Id`-attributed field. -/
theorem schemaValidate_ok_iff (s : Schema) :
    s.validate = .ok () ↔
      (s.models ≠ [] ∧ ∀ m ∈ s.models, m.fields ≠ [] ∧
        (m.fields.any fun f => f.attributes.any FieldAttribute.isId) = true) := by
  cases hm : s.models with
  | nil => simp [Schema.validate, hm]
  | cons a t =>
      simp [Schema.validate, hm, validateModels_ok_iff, modelValidate_ok_iff]

/-! ## The claims -/

set_option maxRecDepth 100000

/-- C2: for the schema with datasource db/postgresql, generator client and
the `User` model (`id Int @id @default(autoincrement())`,
`email String @unique`, `username String?`,
`createdAt DateTime @default(now())`), validation succeeds and the SQL
backend emits exactly the one statement
`CREATE TABLE IF NOT EXISTS "User" (...)` with column fragments
`"id" SERIAL NOT NULL`, `"email" TEXT NOT NULL`, `"username" TEXT`,
`"createdAt" TIMESTAMPTZ NOT NULL DEFAULT now()`, followed by
`PRIMARY KEY ("id")` and `UNIQUE ("email")`. -/
theorem C2_end_to_end_scenario :
    Schema.validate s0 = .ok () ∧
    (schemaToTables s0).map SqlTable.toSql = [userTableSql] := by
  exact ⟨by decide, by decide⟩

/-- C1: the round-trip property fails on this code: the concrete scenario
schema `s0` passes validation, but parsing the serializer's output fails
with `Validation("invalid int default")` instead of returning `s0`,
because `trim_parens` strips every trailing `)` from an attribute's
argument text, so `@default(autoincrement())` reaches `parse_default` as
`autoincrement(`, which falls through to the integer branch and fails.
The CLI's own `DEFAULT_SCHEMA` template contains exactly this field. -/
theorem C1_roundtrip_failure :
    Schema.validate s0 = .ok () ∧
    parseSchemaText (Schema.render s0) =
      .error (.petrol (.validation "invalid int default")) := by
  exact ⟨by decide, by decide⟩

/-- C4 counterexample: for the url entry `env("MY_VAR")`, conversion
stores the variable NAME (`"MY_VAR"`), not a value read from the
environment, and stores the fixed text `env("DATABASE_URL")` — not the
claimed unresolved call text `env("MY_VAR")` — as `raw_url`. -/
theorem C4_counterexample :
    (parseDatasource envUrlBlockAst).map DatasourceBlock.url = .ok (some "MY_VAR") ∧
    (parseDatasource envUrlBlockAst).map DatasourceBlock.rawUrl =
      .ok (some "env(\"DATABASE_URL\")") ∧
    some "env(\"DATABASE_URL\")" ≠ some "env(\"MY_VAR\")" := by
  exact ⟨by decide, by decide, by decide⟩

/-- C4 (amended): for every url entry of the form `env("VAR")`, conversion
sets the datasource's `url` field to the variable name VAR (to the fixed
default name `DATABASE_URL` when the call has no argument) without reading
the environment, and sets `raw_url` to the fixed text
`env("DATABASE_URL")` regardless of VAR. -/
theorem C4_env_reference_decoding :
    ∀ (blockName : String) (inner : Option String),
      parseDatasource
          { name := blockName
            entries := [{ key := "url", value := some (.envCall inner) }] } =
        .ok { name := blockName, provider := "postgresql"
              url := some (parseEnvCall inner)
              rawUrl := some "env(\"DATABASE_URL\")"
              connectionLimit := none, poolTimeoutSeconds := none } ∧
      parseEnvCall none = "DATABASE_URL" ∧
      (∀ raw, parseEnvCall (some raw) = unquote raw) := by
  intro blockName inner
  exact ⟨rfl, rfl, fun raw => rfl⟩

/-- C5: for every scalar type and every combination of the optional and
list modifiers, the generated Rust type wraps the base type in the fixed
order list-then-optional (`Vec` applied first, `Option` outermost), and
the SQL column's nullable flag equals exactly the optional modifier,
regardless of the list modifier. -/
theorem C5_type_modifier_composition :
    ∀ (s : ScalarType) (o l : Bool) (name : String) (attrs : List FieldAttribute),
      scalarRustType
          { name := name, type := .scalar s { optional := o, list := l }
            attributes := attrs } =
        some (if o then
                "Option<" ++ (if l then "Vec<" ++ rustBaseType s ++ ">"
                              else rustBaseType s) ++ ">"
              else (if l then "Vec<" ++ rustBaseType s ++ ">" else rustBaseType s)) ∧
      (SqlColumn.fromField
          { name := name, type := .scalar s { optional := o, list := l }
            attributes := attrs }).map SqlColumn.nullable = some o := by
  intro s o l name attrs
  exact ⟨rfl, rfl⟩

/-- C3: the validator fails with the non-empty-models error on every
schema with an empty model list; fails with the model-specific
empty-fields error on every model with no fields; fails with the
missing-identity error on every model whose fields carry no `Id`
attribute; and succeeds on every schema whose models each have at least
one field and exactly one `Id`-carrying field. -/
theorem C3_validator_totality :
    (∀ s : Schema, s.models = [] →
        s.validate = .error (.validation "schema must contain at least one model")) ∧
    (∀ m : Model, m.fields = [] →
        m.validate =
          .error (.validation ("model " ++ m.name ++ " must contain at least one field"))) ∧
    (∀ m : Model, m.fields ≠ [] →
        (m.fields.any fun f => f.attributes.any FieldAttribute.isId) = false →
        m.validate =
          .error (.validation ("model " ++ m.name ++ " must declare an @id field"))) ∧
    (∀ s : Schema, s.models ≠ [] →
        (∀ m ∈ s.models, m.fields ≠ [] ∧
          (m.fields.countP fun f => f.attributes.any FieldAttribute.isId) = 1) →
        s.validate = .ok ()) := by
  refine ⟨?_, ?_, ?_, ?_⟩
  · intro s h
    simp [Schema.validate, h]
  · intro m h
    simp [Model.validate, h]
  · intro m h1 h2
    simp [Model.validate, isEmpty_false_of_ne_nil h1, h2]
  · intro s h1 h2
    rw [schemaValidate_ok_iff]
    refine ⟨h1, fun m hm => ?_⟩
    obtain ⟨hf, hc⟩ := h2 m hm
    refine ⟨hf, ?_⟩
    have hlen : (m.fields.filter fun f => f.attributes.any FieldAttribute.isId).length = 1 := by
      rw [← List.countP_eq_length_filter]
      exact hc
    cases hfil : m.fields.filter (fun f => f.attributes.any FieldAttribute.isId) with
    | nil => rw [hfil] at hlen; simp at hlen
    | cons x xs =>
        have hx : x ∈ m.fields.filter (fun f => f.attributes.any FieldAttribute.isId) := by
          rw [hfil]
          exact List.mem_cons_self x xs
        rw [List.mem_filter] at hx
        rw [List.any_eq_true]
        exact ⟨x, hx.1, hx.2⟩

/-- Witness for C3 at concrete schemas and models. -/
theorem C3_validator_totality_witness :
    emptySchema.validate = .error (.validation "schema must contain at least one model") ∧
    noFieldsModel.validate =
      .error (.validation "model Empty must contain at least one field") ∧
    noIdModel.validate = .error (.validation "model NoId must declare an @id field") ∧
    s0.validate = .ok () := by
  refine ⟨C3_validator_totality.1 emptySchema rfl,
          C3_validator_totality.2.1 noFieldsModel rfl,
          C3_validator_totality.2.2.1 noIdModel (by decide) (by decide),
          C3_validator_totality.2.2.2 s0 (by decide) (by decide)⟩

/-- C6 counterexample: a field of scalar `Int` whose attribute list is
`[Default(Int 5), Default(AutoIncrement)]` includes a
`Default(AutoIncrement)` and is promoted to SERIAL, yet its column DOES
carry a DEFAULT clause (`5`), because the clause is produced by the FIRST
`Default` attribute in order. -/
theorem C6_counterexample :
    hasAutoincrement autoincAfterIntField = true ∧
    (SqlColumn.fromField autoincAfterIntField).map SqlColumn.sqlType = some .serial ∧
    (SqlColumn.fromField autoincAfterIntField).map SqlColumn.default = some (some "5") := by
  exact ⟨by decide, by decide, by decide⟩

/-- The first-`Default`-wins behavior of `default_clause`: when the first
`Default` attribute is `AutoIncrement`, no clause is produced. -/
theorem defaultClauseLoop_autoincrement_first :
    ∀ attrs, firstDefaultValue attrs = some .autoIncrement →
      defaultClauseLoop attrs = none := by
  intro attrs
  induction attrs with
  | nil => intro h; simp [firstDefaultValue] at h
  | cons a rest ih =>
      intro h
      cases a with
      | default v =>
          simp only [firstDefaultValue, Option.some.injEq] at h
          subst h
          rfl
      | id =>
          simp only [firstDefaultValue] at h
          simpa [defaultClauseLoop] using ih h
      | unique =>
          simp only [firstDefaultValue] at h
          simpa [defaultClauseLoop] using ih h
      | updatedAt =>
          simp only [firstDefaultValue] at h
          simpa [defaultClauseLoop] using ih h
      | map name =>
          simp only [firstDefaultValue] at h
          simpa [defaultClauseLoop] using ih h
      | relation r =>
          simp only [firstDefaultValue] at h
          simpa [defaultClauseLoop] using ih h

/-- C6 (amended): for every field of scalar type Int (resp. BigInt), if
its attributes include a `Default(AutoIncrement)` then its SQL column type
is SERIAL (resp. BIGSERIAL), and without that default it is INTEGER
(resp. BIGINT); the column carries no DEFAULT clause when its FIRST
`Default` attribute is `AutoIncrement` (in particular whenever
`AutoIncrement` is the only default) — the clause is determined by the
first `Default` attribute in attribute order. -/
theorem C6_autoincrement_promotion :
    ∀ (name : String) (m : TypeModifiers) (attrs : List FieldAttribute),
      (hasAutoincrement { name := name, type := .scalar .int m, attributes := attrs } = true →
        (SqlColumn.fromField { name := name, type := .scalar .int m, attributes := attrs }).map
            SqlColumn.sqlType = some .serial ∧
        (SqlColumn.fromField { name := name, type := .scalar .bigInt m, attributes := attrs }).map
            SqlColumn.sqlType = some .bigSerial) ∧
      (hasAutoincrement { name := name, type := .scalar .int m, attributes := attrs } = false →
        (SqlColumn.fromField { name := name, type := .scalar .int m, attributes := attrs }).map
            SqlColumn.sqlType = some .integer ∧
        (SqlColumn.fromField { name := name, type := .scalar .bigInt m, attributes := attrs }).map
            SqlColumn.sqlType = some .bigInt) ∧
      (firstDefaultValue attrs = some .autoIncrement →
        (SqlColumn.fromField { name := name, type := .scalar .int m, attributes := attrs }).map
            SqlColumn.default = some none) := by
  intro name m attrs
  refine ⟨?_, ?_, ?_⟩
  · intro h
    simp only [hasAutoincrement] at h
    constructor <;> simp [SqlColumn.fromField, scalarToSqlType, hasAutoincrement, h]
  · intro h
    simp only [hasAutoincrement] at h
    constructor <;> simp [SqlColumn.fromField, scalarToSqlType, hasAutoincrement, h]
  · intro h
    have hd := defaultClauseLoop_autoincrement_first attrs h
    simp [SqlColumn.fromField, defaultClause, hd]

/-- Witness for C6 at concrete fields. -/
theorem C6_autoincrement_promotion_witness :
    (SqlColumn.fromField
        { name := "id", type := .scalar .int { optional := false, list := false }
          attributes := [.default .autoIncrement] }).map SqlColumn.sqlType = some .serial ∧
    (SqlColumn.fromField
        { name := "n", type := .scalar .int { optional := false, list := false }
          attributes := [] }).map SqlColumn.sqlType = some .integer ∧
    (SqlColumn.fromField
        { name := "id", type := .scalar .int { optional := false, list := false }
          attributes := [.default .autoIncrement] }).map SqlColumn.default = some none := by
  refine ⟨((C6_autoincrement_promotion "id" { optional := false, list := false }
              [.default .autoIncrement]).1 (by decide)).1,
          ((C6_autoincrement_promotion "n" { optional := false, list := false }
              []).2.1 (by decide)).1,
          (C6_autoincrement_promotion "id" { optional := false, list := false }
              [.default .autoIncrement]).2.2 (by decide)⟩

/-- C7: default-attribute argument text is classified by surface syntax in
the fixed priority order: trailing `()` yields AutoIncrement, Uuid or Now
for exactly `autoincrement()`, `uuid()`, `now()` and an
unsupported-feature error for any other nullary name; otherwise a leading
double quote yields a String default; otherwise exactly `true`/`false`
yields a Boolean; otherwise text containing `.` yields a Float; otherwise
an Int; every failing numeric parse yields a validation error. -/
theorem C7_default_classification :
    ∀ raw : String,
      (strEndsWith (rustTrim raw) "()" = true →
        parseDefault raw =
          (if rustTrim raw = "autoincrement()" then .ok .autoIncrement
           else if rustTrim raw = "uuid()" then .ok .uuid
           else if rustTrim raw = "now()" then .ok .now
           else .error (.petrol (.unsupported ("unknown default " ++ rustTrim raw))))) ∧
      (strEndsWith (rustTrim raw) "()" = false →
       strStartsWith (rustTrim raw) "\"" = true →
        parseDefault raw = .ok (.string (unquote (rustTrim raw)))) ∧
      (strEndsWith (rustTrim raw) "()" = false →
       strStartsWith (rustTrim raw) "\"" = false →
       (rustTrim raw = "true" ∨ rustTrim raw = "false") →
        parseDefault raw = .ok (.boolean (rustTrim raw == "true"))) ∧
      (strEndsWith (rustTrim raw) "()" = false →
       strStartsWith (rustTrim raw) "\"" = false →
       rustTrim raw ≠ "true" → rustTrim raw ≠ "false" →
       strContainsChar (rustTrim raw) '.' = true →
        parseDefault raw =
          (if rustF64Accepts (rustTrim raw) then .ok (.float (rustTrim raw))
           else .error (.petrol (.validation "invalid float default")))) ∧
      (strEndsWith (rustTrim raw) "()" = false →
       strStartsWith (rustTrim raw) "\"" = false →
       rustTrim raw ≠ "true" → rustTrim raw ≠ "false" →
       strContainsChar (rustTrim raw) '.' = false →
        parseDefault raw =
          (match parseI64 (rustTrim raw) with
           | some v => .ok (.int v)
           | none => .error (.petrol (.validation "invalid int default")))) := by
  intro raw
  refine ⟨?_, ?_, ?_, ?_, ?_⟩
  · intro h1
    simp [parseDefault, h1]
  · intro h1 h2
    simp [parseDefault, h1, h2]
  · intro h1 h2 h3
    have hb : (rustTrim raw == "true" || rustTrim raw == "false") = true := by
      rcases h3 with h | h <;> simp [h]
    simp [parseDefault, h1, h2, hb]
  · intro h1 h2 h3 h4 h5
    have hb : (rustTrim raw == "true" || rustTrim raw == "false") = false := by
      simp [h3, h4]
    simp [parseDefault, h1, h2, hb, h5]
  · intro h1 h2 h3 h4 h5
    have hb : (rustTrim raw == "true" || rustTrim raw == "false") = false := by
      simp [h3, h4]
    simp [parseDefault, h1, h2, hb, h5]

/-- Witness for C7 at one concrete text per classification branch. -/
theorem C7_default_classification_witness :
    parseDefault "autoincrement()" = .ok .autoIncrement ∧
    parseDefault "\"hi\"" = .ok (.string "hi") ∧
    parseDefault "true" = .ok (.boolean true) ∧
    parseDefault "1.5" = .ok (.float "1.5") ∧
    parseDefault "42" = .ok (.int 42) := by
  refine ⟨?_, ?_, ?_, ?_, ?_⟩
  · rw [(C7_default_classification "autoincrement()").1 (by decide)]
    decide
  · rw [(C7_default_classification "\"hi\"").2.1 (by decide) (by decide)]
    decide
  · rw [(C7_default_classification "true").2.2.1 (by decide) (by decide)
        (Or.inl (by decide))]
    decide
  · rw [(C7_default_classification "1.5").2.2.2.1 (by decide) (by decide) (by decide)
        (by decide) (by decide)]
    decide
  · rw [(C7_default_classification "42").2.2.2.2 (by decide) (by decide) (by decide)
        (by decide) (by decide)]
    decide

/-- The column list built by the `from_model` loop has one column per
scalar field. -/
theorem fromModelLoop_columns_length :
    ∀ fs : List Field,
      (fromModelLoop fs).1.length = (fs.filter fun f => f.type.isScalar).length := by
  intro fs
  induction fs with
  | nil => rfl
  | cons f rest ih =>
      cases hft : f.type with
      | scalar sc mods =>
          simp [fromModelLoop, SqlColumn.fromField, hft, FieldType.isScalar,
                List.filter_cons, ih]
      | relation info =>
          simp [fromModelLoop, SqlColumn.fromField, hft, FieldType.isScalar,
                List.filter_cons, ih]

/-- Rendering a struct field succeeds on every scalar field. -/
theorem renderStructField_isSome_of_scalar :
    ∀ f : Field, f.type.isScalar = true → (renderStructField f).isSome = true := by
  intro f h
  cases hft : f.type with
  | scalar sc mods => simp [renderStructField, scalarRustType, hft]
  | relation info => rw [hft] at h; simp [FieldType.isScalar] at h

/-- Rendering a list of scalar fields succeeds and keeps the length. -/
theorem mapM_renderStructField_length :
    ∀ fs : List Field, (∀ f ∈ fs, f.type.isScalar = true) →
      ∃ l, mapMOption renderStructField fs = some l ∧ l.length = fs.length := by
  intro fs
  induction fs with
  | nil => intro _; exact ⟨[], rfl, rfl⟩
  | cons f rest ih =>
      intro h
      have hf := renderStructField_isSome_of_scalar f (h f (List.mem_cons_self f rest))
      obtain ⟨v, hv⟩ := Option.isSome_iff_exists.mp hf
      obtain ⟨l, hl, hlen⟩ := ih (fun g hg => h g (List.mem_cons_of_mem f hg))
      refine ⟨v :: l, ?_, by simp [hlen]⟩
      simp [mapMOption, hv, hl]

/-- `render_model_module` always succeeds, with one member per scalar
field. -/
theorem renderModelModule_structFields_length :
    ∀ m : Model, (renderModelModule m).map (fun r => r.structFields.length) =
      some ((m.fields.filter fun f => f.type.isScalar).length) := by
  intro m
  obtain ⟨l, hl, hlen⟩ := mapM_renderStructField_length
    (m.fields.filter fun f => f.type.isScalar)
    (fun f hf => (List.mem_filter.mp hf).2)
  simp [renderModelModule, hl, hlen]

/-- C8: relation-typed fields contribute no SQL column and no generated
struct member; the number of SQL columns and of generated members both
equal the number of scalar fields. -/
theorem C8_relation_exclusion :
    ∀ m : Model,
      (∀ f ∈ m.fields, f.type.isScalar = false → SqlColumn.fromField f = none) ∧
      (SqlTable.fromModel m).columns.length =
        (m.fields.filter fun f => f.type.isScalar).length ∧
      (renderModelModule m).map (fun r => r.structFields.length) =
        some ((m.fields.filter fun f => f.type.isScalar).length) := by
  intro m
  refine ⟨?_, ?_, renderModelModule_structFields_length m⟩
  · intro f _ h
    cases hft : f.type with
    | scalar sc mods => rw [hft] at h; simp [FieldType.isScalar] at h
    | relation info => simp [SqlColumn.fromField, hft]
  · exact fromModelLoop_columns_length m.fields

/-- Witness for C8 at a model with one scalar and one relation field. -/
theorem C8_relation_exclusion_witness :
    SqlColumn.fromField relField = none ∧
    (SqlTable.fromModel relModel).columns.length = 1 ∧
    (renderModelModule relModel).map (fun r => r.structFields.length) = some 1 := by
  exact ⟨(C8_relation_exclusion relModel).1 relField (by decide) (by decide),
         (C8_relation_exclusion relModel).2.1.trans (by decide),
         (C8_relation_exclusion relModel).2.2.trans (by decide)⟩

/-- `render_model_module` never reaches the panic branch. -/
theorem renderModelModule_isSome : ∀ m : Model, (renderModelModule m).isSome = true := by
  intro m
  obtain ⟨l, hl, _⟩ := mapM_renderStructField_length
    (m.fields.filter fun f => f.type.isScalar)
    (fun f hf => (List.mem_filter.mp hf).2)
  simp [renderModelModule, hl]

/-- Rendering every model of a schema succeeds. -/
theorem mapM_renderModelModule_isSome :
    ∀ ms : List Model, ∃ l, mapMOption renderModelModule ms = some l := by
  intro ms
  induction ms with
  | nil => exact ⟨[], rfl⟩
  | cons m rest ih =>
      obtain ⟨r, hr⟩ := Option.isSome_iff_exists.mp (renderModelModule_isSome m)
      obtain ⟨l, hl⟩ := ih
      refine ⟨r :: l, ?_⟩
      simp [mapMOption, hr, hl]

/-- C10: code generation is total — the `panic!` branch of
`scalar_rust_type` is unreachable from `generate_with_options` because
`render_model_module` filters fields to the Scalar variant; generation
returns the validation error exactly on an empty model list and otherwise
returns generated source text. -/
theorem C10_codegen_totality :
    ∀ (schema : Schema) (options : GenerateOptions),
      (∀ m ∈ schema.models, renderModelModule m ≠ none) ∧
      (schema.models = [] →
        generateWithOptions schema options =
          some (.error (.validation "schema contains no models"))) ∧
      (schema.models ≠ [] →
        ∃ text, generateWithOptions schema options = some (.ok text)) := by
  intro schema options
  refine ⟨?_, ?_, ?_⟩
  · intro m _ hnone
    have hs := renderModelModule_isSome m
    rw [hnone] at hs
    simp at hs
  · intro h
    simp [generateWithOptions, h]
  · intro h
    obtain ⟨mods, hmods⟩ := mapM_renderModelModule_isSome schema.models
    simp [generateWithOptions, isEmpty_false_of_ne_nil h, hmods]

/-- Witness for C10 at a populated schema and at the empty schema. -/
theorem C10_codegen_totality_witness :
    renderModelModule userModel ≠ none ∧
    generateWithOptions emptySchema GenerateOptions.defaultOptions =
      some (.error (.validation "schema contains no models")) ∧
    ∃ text, generateWithOptions s0 GenerateOptions.defaultOptions = some (.ok text) := by
  exact ⟨(C10_codegen_totality s0 GenerateOptions.defaultOptions).1 userModel (by decide),
         (C10_codegen_totality emptySchema GenerateOptions.defaultOptions).2.1 rfl,
         (C10_codegen_totality s0 GenerateOptions.defaultOptions).2.2 (by decide)⟩

/-- A schema returned by the converter tail has passed `Schema::validate`. -/
theorem parseSchemaFromTops_ok_validate :
    ∀ tops s, parseSchemaFromTops tops = .ok s → s.validate = .ok () := by
  intro tops s h
  unfold parseSchemaFromTops at h
  split at h
  · cases h
  · split at h
    · cases h
    · split at h
      · cases h
      · split at h
        · rename_i schema u heq
          cases u
          cases h
          exact heq
        · cases h

/-- C9: every schema successfully returned by `parse_schema` satisfies
`Schema::validate` — it has at least one model, and every model has a
non-empty field list with at least one `Id`-attributed field. -/
theorem C9_parse_implies_valid :
    ∀ (input : String) (s : Schema),
      parseSchemaText input = .ok s →
      s.validate = .ok () ∧ s.models ≠ [] ∧
        ∀ m ∈ s.models, m.fields ≠ [] ∧
          (m.fields.any fun f => f.attributes.any FieldAttribute.isId) = true := by
  intro input s h
  have hv : s.validate = .ok () := by
    unfold parseSchemaText at h
    split at h
    · cases h
    · split at h
      · cases h
      · exact parseSchemaFromTops_ok_validate _ s h
  have hs := (schemaValidate_ok_iff s).mp hv
  exact ⟨hv, hs.1, hs.2⟩

/-- Witness for C9: a concrete text that parses successfully. -/
theorem C9_parse_implies_valid_witness :
    parseSchemaText simpleText = .ok simpleSchema ∧
    simpleSchema.validate = .ok () := by
  exact ⟨by decide, (C9_parse_implies_valid simpleText simpleSchema (by decide)).1⟩

end Petrol
